import Mathlib

/-!
Verification of the internet connectivity monitor (src/internet-monitor.py).

Shallow embedding of the program's core logic:
* probe aggregation into a connectivity verdict (`comprehensive_check`, lines 973-989);
* the outage-detection state machine (`detect_status_change`, lines 991-1046);
* the local backup buffer (`save_local_backup`, lines 1083-1104) and its
  corruption handling, plus the recovery entry point
  (`attempt_backup_recovery`, lines 1048-1081);
* the sheet-level outage rows (`_log_outage_start_direct` lines 573-585,
  `_log_outage_end_direct` lines 601-658);
* the recovery drain (`recover_from_backup`, lines 677-751);
* the retry/backoff loop (`_execute_with_retry`, lines 305-350) and the
  in-memory failed-upload queue (`_store_failed_upload` lines 352-368,
  `_process_failed_uploads` lines 370-402).

Timestamps are ISO-8601 UTC strings in the source; they are modelled as `Int`
seconds, with the source's string comparison / datetime subtraction mapped to
integer comparison / subtraction (ISO UTC strings of this form compare
lexicographically in chronological order).
-/

/-! ## Probes and the connectivity verdict (comprehensive_check) -/

/-- One probe outcome dict. Only the `success` flag feeds the verdict; the
other fields of the result dicts (target, latency, error, timeout_used) do
not affect `overall_connected` and are omitted. -/
structure ProbeResult where
  success : Bool
deriving Repr, DecidableEq

/-- `any(result.get('success', False) for result in results)` (lines 974-976). -/
def any_success (results : List ProbeResult) : Bool :=
  results.any (fun r => r.success)

/-- `overall_connected = ping_success and (http_success or dns_success)`
(line 978 of `comprehensive_check`). -/
def overall_connected (ping_results http_results dns_results : List ProbeResult) : Bool :=
  any_success ping_results && (any_success http_results || any_success dns_results)

/-! ## The outage-detection state machine (detect_status_change) -/

/-- The mutable fields of `InternetMonitor` that `detect_status_change`
reads and writes: `last_status`, `outage_start_time`,
`connectivity_restored_recently`. -/
structure MonitorState where
  last_status : Option Bool
  outage_start_time : Option Int
  connectivity_restored_recently : Bool
deriving Repr, DecidableEq

/-- Initial state set in `InternetMonitor.__init__` (lines 790-792):
no last status, no open outage. -/
def initMonitorState : MonitorState := ⟨none, none, false⟩

/-- The status-change dicts returned by `detect_status_change`:
`outage_start` (timestamp, location_id) and `outage_end`
(timestamp, location_id, outage_start, duration_seconds). -/
inductive StatusChange where
  | outage_start (timestamp : Int) (location_id : String)
  | outage_end (timestamp : Int) (location_id : String)
      (outage_start_t : Int) (duration_seconds : Int)
deriving Repr, DecidableEq

/-- `InternetMonitor.detect_status_change` (lines 991-1046), with the calls to
the sheets logger (pure side effects on the sink) elided. Returns the updated
state and the optional status-change event. -/
def detect_status_change (loc : String) (s : MonitorState)
    (current_status : Bool) (timestamp : Int) : MonitorState × Option StatusChange :=
  match s.last_status with
  | none =>
    (⟨some current_status, s.outage_start_time, s.connectivity_restored_recently⟩, none)
  | some last =>
    if last && !current_status then
      -- connection lost: open an outage and emit outage_start
      (⟨some current_status, some timestamp, false⟩,
       some (.outage_start timestamp loc))
    else if !last && current_status then
      -- connection restored
      match s.outage_start_time with
      | some st =>
        (⟨some current_status, none, true⟩,
         some (.outage_end timestamp loc st (timestamp - st)))
      | none =>
        (⟨some current_status, none, true⟩, none)
    else
      (⟨some current_status, s.outage_start_time, s.connectivity_restored_recently⟩, none)

/-- Feed a sequence of (verdict, timestamp) pairs through
`detect_status_change`, collecting the emitted events in order. -/
def runDetect (loc : String) : MonitorState → List (Bool × Int) → MonitorState × List StatusChange
  | s, [] => (s, [])
  | s, (b, t) :: rest =>
    ((runDetect loc (detect_status_change loc s b t).1 rest).1,
     (detect_status_change loc s b t).2.toList
       ++ (runDetect loc (detect_status_change loc s b t).1 rest).2)

def isStart : StatusChange → Bool
  | .outage_start _ _ => true
  | _ => false

def isEnd : StatusChange → Bool
  | .outage_end _ _ _ _ => true
  | _ => false

def countStarts (evs : List StatusChange) : Nat := evs.countP isStart

def countEnds (evs : List StatusChange) : Nat := evs.countP isEnd

/-- Number of true-to-false transitions between consecutive observed
verdicts, starting from an optional previously observed verdict. -/
def countUpDown : Option Bool → List Bool → Nat
  | _, [] => 0
  | none, b :: rest => countUpDown (some b) rest
  | some prev, b :: rest => (if prev && !b then 1 else 0) + countUpDown (some b) rest

/-- Number of false-to-true transitions between consecutive observed
verdicts, starting from an optional previously observed verdict. -/
def countDownUp : Option Bool → List Bool → Nat
  | _, [] => 0
  | none, b :: rest => countDownUp (some b) rest
  | some prev, b :: rest => (if !prev && b then 1 else 0) + countDownUp (some b) rest

/-- Checks that starts and ends alternate: a start may only be emitted when no
outage is open (flag false) and an end only when one is open (flag true). -/
def altOk : Bool → List StatusChange → Bool
  | _, [] => true
  | opened, .outage_start _ _ :: rest => !opened && altOk true rest
  | opened, .outage_end _ _ _ _ :: rest => opened && altOk false rest

/-- 1 when an outage is open in state `s`, else 0. -/
def open_flag (s : MonitorState) : Nat :=
  match s.outage_start_time with
  | some _ => 1
  | none => 0

/-- Reachability invariant of the tracker: an open outage implies the last
verdict was false, and before the first observation no outage is open. -/
def MInv (s : MonitorState) : Prop :=
  (s.outage_start_time.isSome = true → s.last_status = some false)
    ∧ (s.last_status = none → s.outage_start_time = none)

theorem minv_init : MInv initMonitorState := by
  constructor <;> simp [initMonitorState]

theorem runDetect_spec (loc : String) :
    ∀ (inputs : List (Bool × Int)) (s : MonitorState), MInv s →
      MInv (runDetect loc s inputs).1
      ∧ countStarts (runDetect loc s inputs).2
          = countUpDown s.last_status (inputs.map Prod.fst)
      ∧ countEnds (runDetect loc s inputs).2 + open_flag (runDetect loc s inputs).1
          = countStarts (runDetect loc s inputs).2 + open_flag s
      ∧ altOk s.outage_start_time.isSome (runDetect loc s inputs).2 = true := by
  intro inputs
  induction inputs with
  | nil =>
    intro s hs
    refine ⟨hs, ?_, ?_, ?_⟩ <;> simp [runDetect, countStarts, countEnds, countUpDown, altOk]
  | cons p rest ih =>
    obtain ⟨b, t⟩ := p
    intro s hs
    obtain ⟨ls, ost, crr⟩ := s
    cases ls with
    | none =>
      have host : ost = none := hs.2 rfl
      subst host
      have step : detect_status_change loc ⟨none, none, crr⟩ b t = (⟨some b, none, crr⟩, none) := rfl
      have ihs := ih ⟨some b, none, crr⟩ ⟨by simp, by simp⟩
      simp only [runDetect, step, Option.toList, List.nil_append]
      refine ⟨ihs.1, ?_, ?_, ?_⟩
      · simpa [countUpDown] using ihs.2.1
      · simpa [open_flag] using ihs.2.2.1
      · simpa using ihs.2.2.2
    | some last =>
      cases last with
      | true =>
        have host : ost = none := by
          cases ost with
          | none => rfl
          | some st => exact absurd (hs.1 (by simp)) (by simp)
        subst host
        cases b with
        | false =>
          -- up -> down : outage_start emitted
          have step : detect_status_change loc ⟨some true, none, crr⟩ false t
              = (⟨some false, some t, false⟩, some (.outage_start t loc)) := rfl
          have ihs := ih ⟨some false, some t, false⟩ ⟨by simp, by simp⟩
          simp only [runDetect, step, Option.toList, List.singleton_append]
          obtain ⟨ih1, ih2, ih3, ih4⟩ := ihs
          simp only [countStarts, countEnds, open_flag] at ih2 ih3 ⊢
          refine ⟨ih1, ?_, ?_, ?_⟩
          · simp [List.countP_cons, countUpDown, isStart]
            omega
          · simp [List.countP_cons, isStart, isEnd]
            omega
          · simp only [altOk, Option.isSome]
            simpa using ih4
        | true =>
          -- up -> up : no event
          have step : detect_status_change loc ⟨some true, none, crr⟩ true t
              = (⟨some true, none, crr⟩, none) := rfl
          have ihs := ih ⟨some true, none, crr⟩ ⟨by simp, by simp⟩
          simp only [runDetect, step, Option.toList, List.nil_append]
          refine ⟨ihs.1, ?_, ?_, ?_⟩
          · simpa [countUpDown] using ihs.2.1
          · simpa [open_flag] using ihs.2.2.1
          · simpa using ihs.2.2.2
      | false =>
        cases b with
        | true =>
          cases ost with
          | some st =>
            -- down -> up with open outage : outage_end emitted
            have step : detect_status_change loc ⟨some false, some st, crr⟩ true t
                = (⟨some true, none, true⟩, some (.outage_end t loc st (t - st))) := rfl
            have ihs := ih ⟨some true, none, true⟩ ⟨by simp, by simp⟩
            simp only [runDetect, step, Option.toList, List.singleton_append]
            obtain ⟨ih1, ih2, ih3, ih4⟩ := ihs
            simp only [countStarts, countEnds, open_flag] at ih2 ih3 ⊢
            refine ⟨ih1, ?_, ?_, ?_⟩
            · simp [List.countP_cons, countUpDown, isStart]
              omega
            · simp [List.countP_cons, isStart, isEnd]
              omega
            · simp only [altOk, Option.isSome]
              simpa using ih4
          | none =>
            -- down -> up with no open outage : no event
            have step : detect_status_change loc ⟨some false, none, crr⟩ true t
                = (⟨some true, none, true⟩, none) := rfl
            have ihs := ih ⟨some true, none, true⟩ ⟨by simp, by simp⟩
            simp only [runDetect, step, Option.toList, List.nil_append]
            refine ⟨ihs.1, ?_, ?_, ?_⟩
            · simpa [countUpDown] using ihs.2.1
            · simpa [open_flag] using ihs.2.2.1
            · simpa using ihs.2.2.2
        | false =>
          -- down -> down : no event, open outage (if any) stays open
          have step : detect_status_change loc ⟨some false, ost, crr⟩ false t
              = (⟨some false, ost, crr⟩, none) := rfl
          have ihs := ih ⟨some false, ost, crr⟩ ⟨fun _ => rfl, by simp⟩
          simp only [runDetect, step, Option.toList, List.nil_append]
          refine ⟨ihs.1, ?_, ?_, ?_⟩
          · simpa [countUpDown] using ihs.2.1
          · simpa [open_flag] using ihs.2.2.1
          · simpa using ihs.2.2.2

/-- Claim C1: the overall connectivity verdict of a check cycle equals
(some ping probe succeeded) AND ((some HTTP probe succeeded) OR (some DNS
probe succeeded)); in particular it is false when every ping probe failed,
and false when all pings succeed but every HTTP and DNS probe failed. -/
theorem c1_overall_connected (p h d : List ProbeResult) :
    (overall_connected p h d = true ↔
      ((∃ r ∈ p, r.success = true)
        ∧ ((∃ r ∈ h, r.success = true) ∨ (∃ r ∈ d, r.success = true))))
    ∧ ((∀ r ∈ p, r.success = false) → overall_connected p h d = false)
    ∧ ((∀ r ∈ h, r.success = false) → (∀ r ∈ d, r.success = false) →
        overall_connected p h d = false) := by
  refine ⟨?_, ?_, ?_⟩
  · simp [overall_connected, any_success, List.any_eq_true]
  · intro hp
    simp only [overall_connected, any_success]
    have : p.any (fun r => r.success) = false := by
      simp [List.any_eq_false]
      intro r hr
      simp [hp r hr]
    simp [this]
  · intro hh hd
    simp only [overall_connected, any_success]
    have h1 : h.any (fun r => r.success) = false := by
      simp [List.any_eq_false]
      intro r hr
      simp [hh r hr]
    have h2 : d.any (fun r => r.success) = false := by
      simp [List.any_eq_false]
      intro r hr
      simp [hd r hr]
    simp [h1, h2]

/-- Witness for `c1_overall_connected` at concrete probe lists: a failed ping
alone makes the verdict false, and successful pings with failed HTTP and DNS
probes also make it false. -/
theorem c1_witness :
    overall_connected [⟨false⟩] [⟨true⟩] [⟨true⟩] = false
    ∧ overall_connected [⟨true⟩] [⟨false⟩] [⟨false⟩] = false :=
  ⟨(c1_overall_connected [⟨false⟩] [⟨true⟩] [⟨true⟩]).2.1 (by decide),
   (c1_overall_connected [⟨true⟩] [⟨false⟩] [⟨false⟩]).2.2 (by decide) (by decide)⟩

/-- Claim C2 counterexample: from the initial state, the verdict sequence
[false, true] contains one false-to-true transition between consecutive
observed verdicts, yet no outage_end event is emitted (the first observation
is false, so no outage is open when the verdict flips to true). This refutes
"the number of outage_end events emitted equals the number of false-to-true
transitions". -/
theorem c2_counterexample :
    countEnds (runDetect "house1" initMonitorState [(false, 0), (true, 60)]).2
        ≠ countDownUp none ([(false, 0), (true, 60)].map Prod.fst)
    ∧ countEnds (runDetect "house1" initMonitorState [(false, 0), (true, 60)]).2 = 0
    ∧ countDownUp none ([(false, 0), (true, 60)].map Prod.fst) = 1 := by
  refine ⟨by decide, by decide, by decide⟩

/-- Claim C2 (amended): for every finite verdict sequence fed to the tracker
from the initial state, the number of outage_start events equals the number
of true-to-false transitions between consecutive observed verdicts; the
number of outage_end events equals the number of outage_start events, minus
one exactly when an outage is still open at the end of the sequence (an
outage_end is emitted at a false-to-true transition only when an outage is
open, which fails only for a down-run begun by the very first observation);
and between any two outage_start events there is an intervening outage_end
event (starts and ends strictly alternate, beginning with a start). -/
theorem c2_transition_counts (loc : String) (inputs : List (Bool × Int)) :
    countStarts (runDetect loc initMonitorState inputs).2
        = countUpDown none (inputs.map Prod.fst)
    ∧ countEnds (runDetect loc initMonitorState inputs).2
          + open_flag (runDetect loc initMonitorState inputs).1
        = countStarts (runDetect loc initMonitorState inputs).2
    ∧ altOk false (runDetect loc initMonitorState inputs).2 = true := by
  have h := runDetect_spec loc inputs initMonitorState minv_init
  refine ⟨h.2.1, ?_, ?_⟩
  · have := h.2.2.1
    simpa [initMonitorState, open_flag] using this
  · simpa [initMonitorState] using h.2.2.2

/-- Claim C3: feeding the verdicts [true, true, false, false, true] at
timestamps t0, t0+60, ..., t0+240 to the tracker from the initial state
emits exactly one outage_start, at t2 = t0+120, and exactly one outage_end,
at t4 = t0+240, whose outage_start field is t2 and whose recorded duration
is 120 seconds. -/
theorem c3_scenario (loc : String) (t0 : Int) :
    runDetect loc initMonitorState
        [(true, t0), (true, t0 + 60), (false, t0 + 120), (false, t0 + 180), (true, t0 + 240)]
      = (⟨some true, none, true⟩,
         [.outage_start (t0 + 120) loc,
          .outage_end (t0 + 240) loc (t0 + 120) 120]) := by
  have hdur : t0 + 240 - (t0 + 120) = 120 := by omega
  simp [runDetect, detect_status_change, initMonitorState, hdur]

/-- Claim C8 counterexample: with verdicts true at time 0, false at time 100,
true at time 40 (timestamps out of order), the tracker emits an outage_end
event carrying the negative duration 40 - 100 = -60; the negative value is
recorded in the event and no consistency error is signalled (the code raises
nothing and performs no check). This refutes "the outage duration is greater
than or equal to zero" and "the tracker fails loudly instead of recording the
negative value". -/
theorem c8_counterexample :
    (runDetect "house1" initMonitorState [(true, 0), (false, 100), (true, 40)]).2
        = [.outage_start 100 "house1", .outage_end 40 "house1" 100 (-60)]
    ∧ ((-60 : Int) < 0) := by
  refine ⟨by decide, by decide⟩

/-- Claim C8 (amended): on a false-to-true verdict transition with an open
outage started at `st`, the tracker always emits an outage_end whose recorded
duration is exactly the end timestamp minus the start timestamp; the duration
is nonnegative whenever the end timestamp is not earlier than the start
timestamp, but the code performs no check and records a negative duration
unchanged (no loud failure) when the timestamps are out of order. -/
theorem c8_duration (loc : String) (st t : Int) (crr : Bool) :
    (detect_status_change loc ⟨some false, some st, crr⟩ true t).2
        = some (.outage_end t loc st (t - st))
    ∧ (st ≤ t → 0 ≤ t - st) := by
  refine ⟨rfl, fun h => by omega⟩

/-- Witness for `c8_duration` at a concrete transition: an outage opened at
time 0 and closed at time 60 yields a nonnegative recorded duration. -/
theorem c8_witness : 0 ≤ (60 : Int) - 0 :=
  (c8_duration "house1" 0 60 false).2 (by decide)

/-! ## The local backup buffer (save_local_backup) -/

/-- The on-disk backup file as seen by `save_local_backup` and
`attempt_backup_recovery`: missing, present but not valid JSON, or a parsed
list of records. -/
inductive FileState (α : Type) where
  | absent
  | corrupt
  | stored (data : List α)
deriving Repr, DecidableEq

/-- The capacity cap of `save_local_backup` (lines 1095-1097):
`if len(local_data) > 1000: local_data = local_data[-1000:]`, keeping the
newest 1000 records. -/
def trim_backup {α : Type} (local_data : List α) : List α :=
  if local_data.length > 1000 then local_data.drop (local_data.length - 1000) else local_data

/-- `InternetMonitor.save_local_backup` (lines 1083-1104). Reads the existing
file (an unreadable file raises `json.JSONDecodeError`, which is caught by the
function's blanket `except`, logging the failure and writing nothing), appends
the new record, trims to the newest 1000, and writes the file back. The
returned Bool is true when the error path was taken (the failure was logged). -/
def save_local_backup {α : Type} (file : FileState α) (data : α) : FileState α × Bool :=
  match file with
  | .corrupt => (.corrupt, true)
  | .absent => (.stored (trim_backup [data]), false)
  | .stored local_data => (.stored (trim_backup (local_data ++ [data])), false)

/-- Claim C6: appending to a buffer holding exactly 1000 records (the cap)
evicts exactly the single oldest record and leaves the newest 1000 in order;
appending to a buffer holding fewer than 1000 records evicts nothing. -/
theorem c6_capacity {α : Type} (buf : List α) (d : α) :
    (buf.length = 1000 →
      save_local_backup (.stored buf) d = (.stored (buf.drop 1 ++ [d]), false)
      ∧ (buf.drop 1 ++ [d]).length = 1000)
    ∧ (buf.length < 1000 →
      save_local_backup (.stored buf) d = (.stored (buf ++ [d]), false)) := by
  constructor
  · intro hlen
    have hlen2 : (buf ++ [d]).length = 1001 := by simp [hlen]
    constructor
    · simp only [save_local_backup, trim_backup, hlen2]
      rw [if_pos (by omega)]
      rw [List.drop_append_of_le_length (by omega)]
    · simp [hlen]
  · intro hlen
    simp only [save_local_backup, trim_backup]
    rw [if_neg (by simp only [List.length_append, List.length_singleton]; omega)]

/-- Witness for `c6_capacity`: a full buffer of 1000 records drops its head on
append, and an empty buffer just appends. -/
theorem c6_witness :
    (save_local_backup (.stored (List.replicate 1000 (0 : Nat))) 7
        = (.stored ((List.replicate 1000 (0 : Nat)).drop 1 ++ [7]), false)
      ∧ ((List.replicate 1000 (0 : Nat)).drop 1 ++ [7]).length = 1000)
    ∧ save_local_backup (.stored ([] : List Nat)) 5 = (.stored [5], false) :=
  ⟨(c6_capacity (List.replicate 1000 (0 : Nat)) 7).1 (by rw [List.length_replicate]),
   (c6_capacity ([] : List Nat) 5).2 (by simp)⟩

/-- Claim C9 counterexample: an append performed on a corrupted buffer does
not treat the content as empty and does not persist the new record: the
blanket `except` in `save_local_backup` catches the JSON parse error, logs it,
and abandons the write, leaving the corrupted file as-is. This refutes "an
append performed on a corrupted buffer still persists the new record". -/
theorem c9_counterexample :
    save_local_backup FileState.corrupt (5 : Nat) = (FileState.corrupt, true)
    ∧ (save_local_backup FileState.corrupt (5 : Nat)).1 ≠ FileState.stored [5] := by
  refine ⟨rfl, by decide⟩

/-! ## The recovery drain (recover_from_backup, attempt_backup_recovery) -/

/-- A record of the backup file: a connectivity check result with its
timestamp, `connected` flag (present on every check record) and optional
status-change event. Probe result details are not read by the recovery
loop's control flow and are folded into the delivery oracles. -/
structure BackupRecord where
  timestamp : Int
  connected : Option Bool
  status_change : Option StatusChange
deriving Repr, DecidableEq

/-- Sort key of `sorted(backup_data, key=lambda x: x.get('timestamp', ''))`
(line 692): ascending timestamp. -/
def ts_le (a b : BackupRecord) : Prop := a.timestamp ≤ b.timestamp

instance : DecidableRel ts_le := fun a b => Int.decLe a.timestamp b.timestamp

instance : IsTotal BackupRecord ts_le := ⟨fun a b => Int.le_total a.timestamp b.timestamp⟩

instance : IsTrans BackupRecord ts_le := ⟨fun _ _ _ h1 h2 => le_trans h1 h2⟩

/-- The skip check at lines 700-703: a record older than the last successful
upload is skipped. -/
def should_skip (lsu : Option Int) (r : BackupRecord) : Bool :=
  match lsu with
  | some l => if r.timestamp < l then true else false
  | none => false

/-- The `recovery_stats` dict of `recover_from_backup`. -/
structure RecoveryStats where
  connectivity_checks : Nat
  outages_started : Nat
  outages_completed : Nat
  errors : Nat
deriving Repr, DecidableEq

/-- The status-change upload of one record (lines 711-733): an outage_start
or outage_end is pushed through `_execute_with_retry`; `sendEvent r = false`
means that upload raised, which the loop's `except` turns into one error
count for the record, while on success `_execute_with_retry` stamps
`self.last_successful_upload = datetime.now()` (line 318), modelled as
`some now`. The `_process_failed_uploads()` call on that success path only
touches the in-memory failed-upload queue, not the drain's control flow,
and is elided. -/
def apply_status_change (now : Int) (sendEvent : BackupRecord → Bool)
    (s : RecoveryStats) (lsu : Option Int) (r : BackupRecord) :
    RecoveryStats × Option Int :=
  match r.status_change with
  | none => (s, lsu)
  | some (.outage_start _ _) =>
    if sendEvent r then
      (⟨s.connectivity_checks, s.outages_started + 1, s.outages_completed, s.errors⟩, some now)
    else (⟨s.connectivity_checks, s.outages_started, s.outages_completed, s.errors + 1⟩, lsu)
  | some (.outage_end _ _ _ _) =>
    if sendEvent r then
      (⟨s.connectivity_checks, s.outages_started, s.outages_completed + 1, s.errors⟩, some now)
    else (⟨s.connectivity_checks, s.outages_started, s.outages_completed, s.errors + 1⟩, lsu)

/-- The body of the recovery loop for one record (lines 697-740): upload the
connectivity check if the record has a `connected` field (`sendCheck r =
false` means that call raised, aborting the rest of the record's processing
with one error count; `sendCheck r = true` means `_execute_with_retry`
returned, stamping `last_successful_upload = now`), then upload its status
change if present. Returns the updated stats together with the possibly
updated `last_successful_upload`. -/
def recover_step (now : Int) (sendCheck sendEvent : BackupRecord → Bool)
    (s : RecoveryStats) (lsu : Option Int) (r : BackupRecord) :
    RecoveryStats × Option Int :=
  if r.connected.isSome then
    if sendCheck r then
      apply_status_change now sendEvent
        ⟨s.connectivity_checks + 1, s.outages_started, s.outages_completed, s.errors⟩
        (some now) r
    else (⟨s.connectivity_checks, s.outages_started, s.outages_completed, s.errors + 1⟩, lsu)
  else apply_status_change now sendEvent s lsu r

/-- One iteration of the drain loop: the skip check at lines 700-702 reads
the current `self.last_successful_upload` (which earlier iterations may have
advanced to `now`), and a non-skipped record is processed by `recover_step`
and appended to the attempted trace. -/
def drain_step (now : Int) (sendCheck sendEvent : BackupRecord → Bool)
    (acc : RecoveryStats × Option Int × List BackupRecord) (r : BackupRecord) :
    RecoveryStats × Option Int × List BackupRecord :=
  if should_skip acc.2.1 r then acc
  else
    ((recover_step now sendCheck sendEvent acc.1 acc.2.1 r).1,
     (recover_step now sendCheck sendEvent acc.1 acc.2.1 r).2,
     acc.2.2 ++ [r])

/-- `GoogleSheetsLogger.recover_from_backup` (lines 677-751): sorts the backup
by timestamp and walks the records, on each iteration skipping a record whose
timestamp is below the current `self.last_successful_upload`; an exception
from a record's uploads is caught, counted in `errors`, and the loop
continues with the next record, while every successful upload moves
`last_successful_upload` to the wall-clock instant `now` (line 318 inside
`_execute_with_retry`), which the next iteration's skip check reads. The
third component traces, in order, the records whose uploads were attempted
(those reaching the loop body past the skip check); the second is the final
`last_successful_upload`. The `ongoing_outages` dict only feeds a log line
and is omitted; the backup file itself is never modified. -/
def recover_from_backup (now : Int) (sendCheck sendEvent : BackupRecord → Bool)
    (lsu : Option Int) (backup_data : List BackupRecord) :
    RecoveryStats × Option Int × List BackupRecord :=
  (List.insertionSort ts_le backup_data).foldl
    (drain_step now sendCheck sendEvent) (⟨0, 0, 0, 0⟩, lsu, [])

/-- Outcome flags of `attempt_backup_recovery`. -/
structure RecoveryOutcome where
  ran_recovery : Bool
  corruption_reported : Bool
deriving Repr, DecidableEq

/-- `InternetMonitor.attempt_backup_recovery` (lines 1048-1081): runs only
when connectivity was recently restored and the 5-minute cooldown has passed
(both abstracted to Booleans); a missing or empty backup is skipped silently,
a corrupted one is reported ("Backup file is corrupted, skipping recovery")
and skipped, otherwise `recover_from_backup` runs at the current wall-clock
instant `now`. The file is never written. -/
def attempt_backup_recovery (restored_recently cooldown_ok : Bool)
    (file : FileState BackupRecord) (now : Int)
    (sendCheck sendEvent : BackupRecord → Bool) (lsu : Option Int) :
    FileState BackupRecord × RecoveryOutcome
      × Option (RecoveryStats × Option Int × List BackupRecord) :=
  if restored_recently && cooldown_ok then
    match file with
    | .absent => (file, ⟨false, false⟩, none)
    | .corrupt => (file, ⟨false, true⟩, none)
    | .stored [] => (file, ⟨false, false⟩, none)
    | .stored (r :: rs) =>
      (file, ⟨true, false⟩,
       some (recover_from_backup now sendCheck sendEvent lsu (r :: rs)))
  else (file, ⟨false, false⟩, none)

/-- The uploads of a record update `last_successful_upload` exactly when its
check upload is attempted and succeeds, or it has no check upload and its
status-change upload succeeds (a failed check upload aborts the record before
its status change). -/
def updates_lsu (sendCheck sendEvent : BackupRecord → Bool) (r : BackupRecord) : Bool :=
  (r.connected.isSome && sendCheck r)
    || (!r.connected.isSome && r.status_change.isSome && sendEvent r)

theorem recover_step_lsu (now : Int) (sendCheck sendEvent : BackupRecord → Bool)
    (s : RecoveryStats) (lsu : Option Int) (r : BackupRecord) :
    (recover_step now sendCheck sendEvent s lsu r).2
      = if updates_lsu sendCheck sendEvent r then some now else lsu := by
  rcases r with ⟨t, c, sc⟩
  cases c with
  | none =>
    cases sc with
    | none => simp [recover_step, apply_status_change, updates_lsu]
    | some e =>
      cases e with
      | outage_start ts l =>
        cases hse : sendEvent ⟨t, none, some (.outage_start ts l)⟩ <;>
          simp [recover_step, apply_status_change, updates_lsu, hse]
      | outage_end ts l st d =>
        cases hse : sendEvent ⟨t, none, some (.outage_end ts l st d)⟩ <;>
          simp [recover_step, apply_status_change, updates_lsu, hse]
  | some b =>
    cases hsc : sendCheck ⟨t, some b, sc⟩ with
    | false => simp [recover_step, updates_lsu, hsc]
    | true =>
      cases sc with
      | none => simp [recover_step, apply_status_change, updates_lsu, hsc]
      | some e =>
        cases e with
        | outage_start ts l =>
          cases hse : sendEvent ⟨t, some b, some (.outage_start ts l)⟩ <;>
            simp [recover_step, apply_status_change, updates_lsu, hsc, hse]
        | outage_end ts l st d =>
          cases hse : sendEvent ⟨t, some b, some (.outage_end ts l st d)⟩ <;>
            simp [recover_step, apply_status_change, updates_lsu, hsc, hse]

theorem recover_trace_sublist_aux (now : Int) (sendCheck sendEvent : BackupRecord → Bool) :
    ∀ (l : List BackupRecord) (s : RecoveryStats) (lsu : Option Int) (acc : List BackupRecord),
      ∃ t, (l.foldl (drain_step now sendCheck sendEvent) (s, lsu, acc)).2.2 = acc ++ t
        ∧ t.Sublist l := by
  intro l
  induction l with
  | nil => intro s lsu acc; exact ⟨[], by simp, List.Sublist.refl []⟩
  | cons r rest ih =>
    intro s lsu acc
    by_cases h : should_skip lsu r = true
    · obtain ⟨t, ht, hsub⟩ := ih s lsu acc
      refine ⟨t, ?_, hsub.cons r⟩
      simpa [List.foldl_cons, drain_step, h] using ht
    · have h2 : should_skip lsu r = false := by
        cases hb : should_skip lsu r
        · rfl
        · exact absurd hb h
      obtain ⟨t, ht, hsub⟩ := ih (recover_step now sendCheck sendEvent s lsu r).1
        (recover_step now sendCheck sendEvent s lsu r).2 (acc ++ [r])
      refine ⟨r :: t, ?_, hsub.cons₂ r⟩
      rw [List.foldl_cons]
      simp only [drain_step, h2, Bool.false_eq_true, if_false]
      rw [ht, List.append_assoc, List.singleton_append]

theorem recover_allfail_aux (now : Int) :
    ∀ (l : List BackupRecord) (s : RecoveryStats) (lsu : Option Int) (acc : List BackupRecord),
      (l.foldl (drain_step now (fun _ => false) (fun _ => false)) (s, lsu, acc)).2.2
        = acc ++ l.filter (fun r => !should_skip lsu r) := by
  intro l
  induction l with
  | nil => intro s lsu acc; simp
  | cons r rest ih =>
    intro s lsu acc
    have hl : (recover_step now (fun _ => false) (fun _ => false) s lsu r).2 = lsu := by
      rw [recover_step_lsu]
      simp [updates_lsu]
    by_cases h : should_skip lsu r = true
    · simp [List.foldl_cons, drain_step, h, ih]
    · have h2 : should_skip lsu r = false := by
        cases hb : should_skip lsu r
        · rfl
        · exact absurd hb h
      rw [List.foldl_cons]
      simp only [drain_step, h2, Bool.false_eq_true, if_false, hl]
      rw [ih]
      simp [h2]

theorem recover_frozen_aux (now : Int) (sendCheck sendEvent : BackupRecord → Bool) :
    ∀ (l : List BackupRecord), (∀ r ∈ l, r.timestamp < now) →
      ∀ (s : RecoveryStats) (acc : List BackupRecord),
        l.foldl (drain_step now sendCheck sendEvent) (s, some now, acc) = (s, some now, acc) := by
  intro l
  induction l with
  | nil => intro _ s acc; rfl
  | cons r rest ih =>
    intro h s acc
    have hr : should_skip (some now) r = true := by
      simp [should_skip]
      exact h r (List.mem_cons_self r rest)
    rw [List.foldl_cons]
    simp only [drain_step, hr, if_true]
    exact ih (fun x hx => h x (List.mem_cons_of_mem r hx)) s acc

theorem recover_first_success_aux (now : Int) (sendCheck sendEvent : BackupRecord → Bool) :
    ∀ (l : List BackupRecord), (∀ r ∈ l, r.timestamp < now) →
      ∀ (s : RecoveryStats) (acc : List BackupRecord),
        (l.foldl (drain_step now sendCheck sendEvent) (s, none, acc)).2.2
          = acc ++ (l.takeWhile (fun r => !updates_lsu sendCheck sendEvent r)
              ++ (l.dropWhile (fun r => !updates_lsu sendCheck sendEvent r)).take 1) := by
  intro l
  induction l with
  | nil => intro _ s acc; simp
  | cons r rest ih =>
    intro h s acc
    have hskip : should_skip none r = false := rfl
    rw [List.foldl_cons]
    simp only [drain_step, hskip, Bool.false_eq_true, if_false]
    rw [recover_step_lsu]
    cases hu : updates_lsu sendCheck sendEvent r with
    | true =>
      simp only [if_true]
      rw [recover_frozen_aux now sendCheck sendEvent rest
        (fun x hx => h x (List.mem_cons_of_mem r hx))]
      simp [List.takeWhile_cons, List.dropWhile_cons, hu]
    | false =>
      simp only [Bool.false_eq_true, if_false]
      rw [ih (fun x hx => h x (List.mem_cons_of_mem r hx))]
      simp [List.takeWhile_cons, List.dropWhile_cons, hu]

/-- Claim C4 counterexample. First conjunct: with 2 buffered records
(timestamps 1 and 2) where record 1's delivery fails, record 2 is still
attempted in the same pass — the loop's `except` counts the error and
continues (lines 738-740), and a failure does not advance
`last_successful_upload`, so the next record is not skipped either. This
refutes "if the delivery of record k fails, no record after k is attempted
in that pass". Second conjunct: in the claim's own 3-record scenario, under
a clock later than every buffered timestamp, record 1's success moves
`last_successful_upload` to now (line 318), so records 2 and 3 are skipped
by the lines 700-702 check rather than attempted — the premise "the 2nd
delivery fails" cannot even occur, record 1 is not "marked delivered"
(nothing is), and the stats count one check and zero errors. -/
theorem c4_counterexample :
    recover_from_backup 1000
        (fun r => if r.timestamp = 1 then false else true) (fun _ => true) none
        [⟨1, some true, none⟩, ⟨2, some true, none⟩]
      = (⟨1, 0, 0, 1⟩, some 1000, [⟨1, some true, none⟩, ⟨2, some true, none⟩])
    ∧ recover_from_backup 1000
        (fun r => if r.timestamp = 2 then false else true) (fun _ => true) none
        [⟨1, some true, none⟩, ⟨2, some true, none⟩, ⟨3, some true, none⟩]
      = (⟨1, 0, 0, 0⟩, some 1000, [⟨1, some true, none⟩]) := by
  refine ⟨by decide, by decide⟩

/-- Claim C4 (amended): the recovery drain attempts records in ascending
timestamp order, and a failed delivery does not stop the pass: the exception
is caught, counted in `errors`, and the drain moves on to the next record —
when every delivery fails, every eligible record is attempted. However, each
successful upload inside the drain sets `last_successful_upload` to the
current wall-clock time, and the skip check reads it on every iteration; so
when the clock is later than every buffered timestamp (the normal case),
the drain attempts records only up to and including the first one whose
upload succeeds, and skips the rest of the pass. No record is removed from
the buffer or marked delivered: `attempt_backup_recovery` leaves the backup
file untouched, so all records remain buffered for the next pass. -/
theorem c4_drain (now : Int) (sendCheck sendEvent : BackupRecord → Bool)
    (lsu : Option Int) (backup : List BackupRecord) :
    List.Sorted ts_le ((recover_from_backup now sendCheck sendEvent lsu backup).2.2)
    ∧ (recover_from_backup now (fun _ => false) (fun _ => false) lsu backup).2.2
        = (List.insertionSort ts_le backup).filter (fun r => !should_skip lsu r)
    ∧ ((∀ r ∈ backup, r.timestamp < now) →
        (recover_from_backup now sendCheck sendEvent none backup).2.2
          = (List.insertionSort ts_le backup).takeWhile
              (fun r => !updates_lsu sendCheck sendEvent r)
            ++ ((List.insertionSort ts_le backup).dropWhile
              (fun r => !updates_lsu sendCheck sendEvent r)).take 1)
    ∧ (∀ (rr cd : Bool) (file : FileState BackupRecord) (n2 : Int)
        (sc se : BackupRecord → Bool) (l : Option Int),
        (attempt_backup_recovery rr cd file n2 sc se l).1 = file) := by
  refine ⟨?_, ?_, ?_, ?_⟩
  · obtain ⟨t, ht, hsub⟩ := recover_trace_sublist_aux now sendCheck sendEvent
      (List.insertionSort ts_le backup) ⟨0, 0, 0, 0⟩ lsu []
    have heq : (recover_from_backup now sendCheck sendEvent lsu backup).2.2 = t := by
      simpa [recover_from_backup] using ht
    rw [heq]
    exact List.Pairwise.sublist hsub (List.sorted_insertionSort ts_le backup)
  · simpa [recover_from_backup] using
      recover_allfail_aux now (List.insertionSort ts_le backup) ⟨0, 0, 0, 0⟩ lsu []
  · intro h
    have h2 : ∀ r ∈ List.insertionSort ts_le backup, r.timestamp < now := by
      intro r hr
      exact h r ((List.perm_insertionSort ts_le backup).mem_iff.mp hr)
    simpa [recover_from_backup] using
      recover_first_success_aux now sendCheck sendEvent
        (List.insertionSort ts_le backup) h2 ⟨0, 0, 0, 0⟩ []
  · intro rr cd file n2 sc se l
    cases rr <;> cases cd <;> rcases file with _ | _ | (_ | ⟨r, rs⟩) <;> rfl

/-- Witness for `c4_drain` at a concrete drain: 3 records (timestamps 1, 2,
3), a clock at 1000, record 2's delivery set to fail — record 1's success
advances `last_successful_upload`, so only record 1 is attempted. -/
theorem c4_witness :
    (recover_from_backup 1000
        (fun r => if r.timestamp = 2 then false else true) (fun _ => true) none
        [⟨1, some true, none⟩, ⟨2, some true, none⟩, ⟨3, some true, none⟩]).2.2
      = [⟨1, some true, none⟩] := by
  have h := (c4_drain 1000
      (fun r => if r.timestamp = 2 then false else true) (fun _ => true) none
      [⟨1, some true, none⟩, ⟨2, some true, none⟩, ⟨3, some true, none⟩]).2.2.1
    (by decide)
  rw [h]
  decide

/-- Claim C9 (amended): when the on-disk buffer fails to parse, the agent
does not crash and the condition is reported in both paths, but the two
paths differ from the claim: the recovery read reports the corruption and
skips recovery (no recovery runs, the file is untouched), while an append
logs the failure and abandons the write — the corrupt content is not treated
as an empty buffer and the new record is not persisted. In all cases
`attempt_backup_recovery` leaves the file unchanged. -/
theorem c9_corruption :
    (∀ (d : BackupRecord),
      save_local_backup FileState.corrupt d = (FileState.corrupt, true))
    ∧ (∀ (now : Int) (sc se : BackupRecord → Bool) (lsu : Option Int),
      attempt_backup_recovery true true FileState.corrupt now sc se lsu
        = (FileState.corrupt, ⟨false, true⟩, none))
    ∧ (∀ (rr cd : Bool) (file : FileState BackupRecord) (now : Int)
        (sc se : BackupRecord → Bool) (lsu : Option Int),
        (attempt_backup_recovery rr cd file now sc se lsu).1 = file) := by
  refine ⟨fun d => rfl, fun now sc se lsu => rfl, ?_⟩
  intro rr cd file now sc se lsu
  cases rr <;> cases cd <;> rcases file with _ | _ | (_ | ⟨r, rs⟩) <;> rfl

/-! ## Sheet-level outage rows (_log_outage_start_direct, _log_outage_end_direct) -/

/-- A row of the Outages sheet: Location_ID, Start_Time, End_Time,
Duration_Seconds, Status. The derived display columns Duration_Minutes and
Duration_Hours (floating-point roundings of the seconds) are omitted. -/
structure OutageRow where
  location_id : String
  start_time : Int
  end_time : Option Int
  duration_seconds : Option Int
  status : String
deriving Repr, DecidableEq

/-- The match at lines 613-617 of `_log_outage_end_direct`: same location,
same start time, status ONGOING. -/
def outage_row_matches (loc : String) (start : Int) (row : OutageRow) : Bool :=
  row.location_id == loc && row.start_time == start && row.status == "ONGOING"

/-- `GoogleSheetsLogger._log_outage_start_direct` (lines 573-585):
unconditionally appends a new row with empty end/duration cells and status
ONGOING. -/
def log_outage_start_direct (sheet : List OutageRow) (loc : String) (start : Int) :
    List OutageRow :=
  sheet ++ [⟨loc, start, none, none, "ONGOING"⟩]

/-- `GoogleSheetsLogger._log_outage_end_direct` (lines 601-658): scans the
sheet for the first row with the matching location, start time and ONGOING
status and updates it in place to RESOLVED with the end time and duration;
if no such row exists, appends a complete RESOLVED record instead. -/
def log_outage_end_direct (loc : String) (start end_t dur : Int) :
    List OutageRow → List OutageRow
  | [] => [⟨loc, start, some end_t, some dur, "RESOLVED"⟩]
  | row :: rest =>
    if outage_row_matches loc start row then
      ⟨loc, start, some end_t, some dur, "RESOLVED"⟩ :: rest
    else row :: log_outage_end_direct loc start end_t dur rest

/-- Number of open (ONGOING) outage rows for a given (location, start_time). -/
def ongoing_count (sheet : List OutageRow) (loc : String) (start : Int) : Nat :=
  sheet.countP (outage_row_matches loc start)

/-- Claim C5 counterexample: replaying the same outage_start record twice
against an empty sheet produces two ONGOING rows for the same
(location, start_time) — `_log_outage_start_direct` appends unconditionally,
with no idempotence check. This refutes "replaying an outage_start record is
idempotent with respect to the set of ONGOING rows" and "at most one open
outage row for any given (location_id, start_time)". -/
theorem c5_counterexample :
    ongoing_count
        (log_outage_start_direct (log_outage_start_direct [] "house1" 100) "house1" 100)
        "house1" 100 = 2 := by
  decide

/-- Claim C5 (amended): replaying an outage_end record is idempotent with
respect to the set of ONGOING rows — it resolves the first matching ONGOING
row when one exists and otherwise appends a RESOLVED row, so the ONGOING
count for its (location, start_time) always drops by one (truncated at
zero) and never increases. Replaying an outage_start record is not
idempotent: each replay appends one more ONGOING row for the same
(location, start_time). -/
theorem c5_replay (sheet : List OutageRow) (loc : String) (start end_t dur : Int) :
    ongoing_count (log_outage_end_direct loc start end_t dur sheet) loc start
        = ongoing_count sheet loc start - 1
    ∧ ongoing_count (log_outage_start_direct sheet loc start) loc start
        = ongoing_count sheet loc start + 1 := by
  constructor
  · induction sheet with
    | nil => simp [log_outage_end_direct, ongoing_count, outage_row_matches]
    | cons row rest ih =>
      by_cases h : outage_row_matches loc start row = true
      · simp only [log_outage_end_direct, if_pos h, ongoing_count, List.countP_cons, h]
        have hres : outage_row_matches loc start ⟨loc, start, some end_t, some dur, "RESOLVED"⟩ = false := by
          simp [outage_row_matches]
        simp [hres]
      · have h2 : outage_row_matches loc start row = false := by
          cases hb : outage_row_matches loc start row
          · rfl
          · exact absurd hb h
        simp only [ongoing_count] at ih
        simp [log_outage_end_direct, ongoing_count, List.countP_cons, h2]
        omega
  · have hnew : outage_row_matches loc start ⟨loc, start, none, none, "ONGOING"⟩ = true := by
      simp [outage_row_matches]
    simp [ongoing_count, log_outage_start_direct, List.countP_append, hnew]

/-! ## Retry with backoff (_execute_with_retry) and the failed-upload queue -/

/-- Classification of one sink call's outcome, mirroring the except-clauses of
`_execute_with_retry`: success, HttpError with status 401/403, 429, any other
HttpError, or any other exception. -/
inductive SinkOutcome where
  | ok
  | auth_error
  | rate_limit
  | http_error
  | generic_error
deriving Repr, DecidableEq

/-- Seconds slept after a failed attempt (lines 329, 334, 339, 346):
`backoff_factor ** attempt`, except rate limits which wait
`(backoff_factor ** attempt) * 5`. -/
def backoff_sleep (e : SinkOutcome) (backoff_factor attempt : Nat) : Nat :=
  match e with
  | .rate_limit => backoff_factor ^ attempt * 5
  | _ => backoff_factor ^ attempt

/-- The `for attempt in range(max_retries)` loop of `_execute_with_retry`
(lines 305-350), with `remaining` the number of loop iterations left
(initially `max_retries`). On success the operation's result is returned; on
failure the loop sleeps and retries unless this was the last attempt
(`attempt < max_retries - 1` is exactly `remaining > 1`), after which the
function raises. Returns (success?, number of operation invocations, list of
sleep delays between consecutive attempts). Service rebuilding in the auth
and generic branches has no effect on this control flow and is elided. -/
def retry_loop (outcome : Nat → SinkOutcome) (backoff_factor : Nat) :
    Nat → Nat → Bool × Nat × List Nat
  | _, 0 => (false, 0, [])
  | attempt, remaining + 1 =>
    match outcome attempt with
    | .ok => (true, 1, [])
    | e =>
      if remaining = 0 then (false, 1, [])
      else
        ((retry_loop outcome backoff_factor (attempt + 1) remaining).1,
         (retry_loop outcome backoff_factor (attempt + 1) remaining).2.1 + 1,
         backoff_sleep e backoff_factor attempt
           :: (retry_loop outcome backoff_factor (attempt + 1) remaining).2.2)

/-- `GoogleSheetsLogger._execute_with_retry(operation, max_retries=3,
backoff_factor=2)`: `outcome n` is what the n-th invocation of the operation
does. `false` in the first component models the final
`raise Exception("Failed to execute operation after ...")`. -/
def execute_with_retry (outcome : Nat → SinkOutcome) (max_retries backoff_factor : Nat) :
    Bool × Nat × List Nat :=
  retry_loop outcome backoff_factor 0 max_retries

/-- An entry of the in-memory `failed_uploads` queue (lines 352-359):
operation type, payload (abstracted to a number), retry count. -/
structure FailedUpload where
  operation_type : String
  data : Nat
  retry_count : Nat
deriving Repr, DecidableEq

/-- `GoogleSheetsLogger._store_failed_upload` (lines 352-368): if the queue
already holds 100 or more entries it is first cut to its newest 50
(`self.failed_uploads[-50:]`), then the new entry is appended with
retry_count 0. -/
def store_failed_upload (failed_uploads : List FailedUpload)
    (operation_type : String) (data : Nat) : List FailedUpload :=
  (if failed_uploads.length ≥ 100
    then failed_uploads.drop (failed_uploads.length - 50)
    else failed_uploads)
  ++ [⟨operation_type, data, 0⟩]

/-- `GoogleSheetsLogger._process_failed_uploads` (lines 370-402): each queued
entry's retry count is incremented, its upload is retried (`deliver u =
true` means the direct logging call returned without raising), and the entry
is removed from the queue when the retry succeeded or when its incremented
retry count has reached 5 ("Giving up on upload after 5 retries"). Surviving
entries keep their incremented retry count (the dict is mutated in place). -/
def process_failed_uploads (deliver : FailedUpload → Bool)
    (failed_uploads : List FailedUpload) : List FailedUpload :=
  failed_uploads.filterMap (fun u =>
    if deliver ⟨u.operation_type, u.data, u.retry_count + 1⟩ then none
    else if u.retry_count + 1 ≥ 5 then none
    else some ⟨u.operation_type, u.data, u.retry_count + 1⟩)

/-- `GoogleSheetsLogger.log_outage_start` (lines 564-571): pushes the outage
through `_execute_with_retry` with the default limits (max_retries=3,
backoff_factor=2); if that raises, the record is stored in the failed-upload
queue. Returns the queue and whether delivery succeeded. -/
def log_outage_start (outcome : Nat → SinkOutcome)
    (failed_uploads : List FailedUpload) (data : Nat) : List FailedUpload × Bool :=
  if (execute_with_retry outcome 3 2).1 then (failed_uploads, true)
  else (store_failed_upload failed_uploads "outage_start" data, false)

/-- Claim C7: with attempt limit 3 and a sink that returns a rate-limit error
on every call, the operation is invoked exactly 3 times, the backoff delays
slept between consecutive attempts are 5 and 10 seconds — strictly
increasing — and the call then raises a delivery error to the caller; the
caller stores the record rather than dropping it, so it remains buffered for
a later pass (the durable on-disk backup, written by `save_local_backup`
before delivery is attempted, is never touched by the delivery path). -/
theorem c7_rate_limit_retry :
    execute_with_retry (fun _ => .rate_limit) 3 2 = (false, 3, [5, 10])
    ∧ List.Chain' (fun a b => a < b) (execute_with_retry (fun _ => .rate_limit) 3 2).2.2
    ∧ (∀ (q : List FailedUpload) (d : Nat),
        (log_outage_start (fun _ => .rate_limit) q d).2 = false
        ∧ (⟨"outage_start", d, 0⟩ : FailedUpload)
            ∈ (log_outage_start (fun _ => .rate_limit) q d).1) := by
  have h1 : execute_with_retry (fun _ => .rate_limit) 3 2 = (false, 3, [5, 10]) := by decide
  refine ⟨h1, ?_, ?_⟩
  · rw [h1]
    simp [List.chain'_cons]
  intro q d
  constructor
  · rfl
  · show _ ∈ store_failed_upload q "outage_start" d
    simp [store_failed_upload]

/-- Claim C10: the in-memory failed-upload queue is bounded — storing a
failed upload while the queue holds 100 or more entries first trims it to
its newest 50 before appending, so the queue length never exceeds 101 (in
fact never exceeds 100); and during failed-upload processing, an entry whose
incremented retry count has reached 5 is removed from the queue even if its
delivery attempt failed: every surviving entry has retry count below 5 and a
failed delivery. -/
theorem c10_queue_bounds (q : List FailedUpload) (op : String) (d : Nat)
    (deliver : FailedUpload → Bool) :
    (q.length ≥ 100 →
      store_failed_upload q op d = q.drop (q.length - 50) ++ [⟨op, d, 0⟩])
    ∧ (q.length < 100 → store_failed_upload q op d = q ++ [⟨op, d, 0⟩])
    ∧ (store_failed_upload q op d).length ≤ 101
    ∧ (∀ u ∈ process_failed_uploads deliver q,
        u.retry_count < 5 ∧ deliver u = false) := by
  refine ⟨?_, ?_, ?_, ?_⟩
  · intro h
    simp [store_failed_upload, if_pos h]
  · intro h
    have h2 : ¬ q.length ≥ 100 := by omega
    simp [store_failed_upload, if_neg h2]
  · by_cases h : q.length ≥ 100
    · simp [store_failed_upload, if_pos h, List.length_drop]
      omega
    · simp [store_failed_upload, if_neg h]
      omega
  · intro u hu
    simp only [process_failed_uploads, List.mem_filterMap] at hu
    obtain ⟨a, _, ha⟩ := hu
    by_cases hd : deliver ⟨a.operation_type, a.data, a.retry_count + 1⟩ = true
    · simp [hd] at ha
    · have hd2 : deliver ⟨a.operation_type, a.data, a.retry_count + 1⟩ = false := by
        cases hb : deliver ⟨a.operation_type, a.data, a.retry_count + 1⟩
        · rfl
        · exact absurd hb hd
      by_cases hr : a.retry_count + 1 ≥ 5
      · simp [hd2, hr] at ha
      · simp [hd2, hr] at ha
        constructor
        · rw [ha.symm]
          simp
          omega
        · rw [ha.symm]
          exact hd2

/-- Witness for `c10_queue_bounds`: a queue of exactly 100 entries is trimmed
to its newest 50 before the append, an empty queue is appended to directly,
and an entry surviving processing has retry count below 5 with a failed
delivery. -/
theorem c10_witness :
    store_failed_upload (List.replicate 100 ⟨"connectivity_check", 0, 0⟩) "outage_end" 3
        = (List.replicate 100 (⟨"connectivity_check", 0, 0⟩ : FailedUpload)).drop 50
          ++ [⟨"outage_end", 3, 0⟩]
    ∧ store_failed_upload [] "outage_end" 3 = [⟨"outage_end", 3, 0⟩]
    ∧ ((⟨"connectivity_check", 0, 1⟩ : FailedUpload).retry_count < 5
        ∧ (fun (_ : FailedUpload) => false) ⟨"connectivity_check", 0, 1⟩ = false) := by
  refine ⟨?_, ?_, ?_⟩
  · have h := (c10_queue_bounds (List.replicate 100 ⟨"connectivity_check", 0, 0⟩)
      "outage_end" 3 (fun _ => false)).1 (by rw [List.length_replicate])
    rw [h, List.length_replicate]
  · exact (c10_queue_bounds [] "outage_end" 3 (fun _ => false)).2.1 (by simp)
  · exact (c10_queue_bounds [⟨"connectivity_check", 0, 0⟩] "x" 0 (fun _ => false)).2.2.2
      ⟨"connectivity_check", 0, 1⟩ (by simp [process_failed_uploads])
